import Mathlib

/-!
Shallow embedding of `pe32multi_sub.py`: an MQTT-to-PostgreSQL relay that
routes device measurements to time-series tables.

The embedding models:
- the database schema snapshot seen by `DatabaseIntrospection` as a list of
  `(table name, column dictionary)` pairs;
- `Pe32DataTables.from_database` / `.get` (catalog discovery and lookup);
- `DatabaseConnection.get_row` (the exactly-one-row assertion);
- `Pe32Writer.get_device` / `.on_measure` (device resolution, label check,
  timestamp bucketing, marshalling, and the INSERT statements, the latter
  reified as `InsertRow` values recording the column list and values);
- `Pe32Relay.on_payload` / `.on_message` (topic parsing, ASCII payload
  decoding, and the per-message exception barrier).

Python exceptions are modelled with `Except PyErr`; Python truthiness of the
`table` (str-or-None) and `label_id` (int-or-None) values is modelled
explicitly.  The numeric marshaller `float` is a parameter
`pf : String → Option Rat` (Python `float()` raising `ValueError` on bad
input becomes `none`); theorems quantify over it.
-/

namespace Pe32MultiSub

/-- One column description, as produced by `DatabaseIntrospection.columns_for`
(`is_nullable` is true iff the introspected nullability differs from the
literal NO, `data_type` the SQL type name). -/
structure ColDesc where
  is_nullable : Bool
  data_type : String
deriving DecidableEq, Repr

/-- A Python dict `column name -> properties`, as an association list. -/
abbrev Columns := List (String × ColDesc)

def DB_TS : String := "timestamp with time zone"

def DB_FK : String := "integer"

def DB_NUM : String := "real"

def DB_STR : String := "character varying"

/-- Layout constant `Pe32DataTables._NUMERIC_TABLE_LAYOUT`. -/
def NUMERIC_TABLE_LAYOUT : Columns :=
  [("time", ⟨false, DB_TS⟩),
   ("label_id", ⟨false, DB_FK⟩),
   ("avg", ⟨false, DB_NUM⟩),
   ("med", ⟨false, DB_NUM⟩),
   ("low", ⟨true, DB_NUM⟩),
   ("high", ⟨true, DB_NUM⟩)]

/-- Layout constant `Pe32DataTables._TEXT_TABLE_LAYOUT`. -/
def TEXT_TABLE_LAYOUT : Columns :=
  [("time", ⟨false, DB_TS⟩),
   ("label_id", ⟨false, DB_FK⟩),
   ("value", ⟨false, DB_STR⟩)]

/-- The two marshallers stored in `Pe32DataTables._tables`: Python `float`
and `str`. -/
inductive Marshaller where
  | float
  | str
deriving DecidableEq, Repr

/-- Python dict equality (`columns == cls._NUMERIC_TABLE_LAYOUT`): the same
keys mapped to the same values, irrespective of ordering. -/
def dictEq (a b : Columns) : Bool :=
  a.all (fun kv => List.lookup kv.1 b == some kv.2) &&
  b.all (fun kv => List.lookup kv.1 a == some kv.2)

/-- The per-table branch of `Pe32DataTables.from_database`: administrative
tables are passed over, an exact numeric-layout match adds a `float`
marshaller, an exact text-layout match adds a `str` marshaller, anything
else is skipped (logged). -/
def classify_table (table : String) (columns : Columns) : Option Marshaller :=
  if table = "device" || table = "label" then none
  else if dictEq columns NUMERIC_TABLE_LAYOUT then some Marshaller.float
  else if dictEq columns TEXT_TABLE_LAYOUT then some Marshaller.str
  else none

/-- A schema snapshot: the rows the two introspection queries describe,
grouped per table (`DatabaseIntrospection.columns_for`). -/
abbrev Schema := List (String × Columns)

/-- Catalog state `Pe32DataTables._tables`: table name -> `(table_name, marshaller)`. -/
abbrev Catalog := List (String × (String × Marshaller))

def py_char_list_le : List Char → List Char → Bool
  | [], _ => true
  | _ :: _, [] => false
  | c :: cs, d :: ds =>
    if c = d then py_char_list_le cs ds
    else decide (c.val.toNat < d.val.toNat)

/-- Lexicographic code-point order on strings, the order Python sorted()
uses on str values. -/
def py_str_le (a b : String) : Bool :=
  py_char_list_le a.data b.data

def ins_sorted (a : String) : List String → List String
  | [] => [a]
  | b :: t => if py_str_le a b then a :: b :: t else b :: ins_sorted a t

/-- `list(sorted(...))` over strings: ascending by `py_str_le`. -/
def py_sorted : List String → List String
  | [] => []
  | a :: t => ins_sorted a (py_sorted t)

/-- Discovery `Pe32DataTables.from_database`: iterate over the sorted table names
(`DatabaseIntrospection.tables` sorts them), fetch the per-table columns,
and classify. -/
def from_database (schema : Schema) : Catalog :=
  (py_sorted (schema.map Prod.fst)).filterMap
    (fun t => ((List.lookup t schema).bind (classify_table t)).map
      (fun m => (t, (t, m))))

/-- Lookup `Pe32DataTables.get`: the dict get with default `(None, None)`. -/
def tables_get (tables : Catalog) (table : String) :
    Option String × Option Marshaller :=
  match List.lookup table tables with
  | some tm => (some tm.1, some tm.2)
  | none => (none, none)

/-- The Python exceptions raised on the message-processing path. -/
inductive PyErr where
  | assertionError
  | valueError
  | unicodeDecodeError
deriving DecidableEq, Repr

instance {ε α : Type} [DecidableEq ε] [DecidableEq α] : DecidableEq (Except ε α)
  | Except.ok a, Except.ok b =>
    if h : a = b then isTrue (by rw [h])
    else isFalse (by intro hc; cases hc; exact h rfl)
  | Except.ok _, Except.error _ => isFalse (by intro h; cases h)
  | Except.error _, Except.ok _ => isFalse (by intro h; cases h)
  | Except.error e, Except.error f =>
    if h : e = f then isTrue (by rw [h])
    else isFalse (by intro hc; cases hc; exact h rfl)

/-- A row of the `device` table. -/
structure DeviceRecord where
  id : Int
  identifier : String
  dev_type : String
  label_id : Option Int
deriving DecidableEq, Repr

/-- Model of `DatabaseConnection.get_row`: `assert len(ret) == 1` then return the
single row; the failed assertion is an `AssertionError`. -/
def get_row {α : Type} (rows : List α) : Except PyErr α :=
  match rows with
  | [r] => Except.ok r
  | _ => Except.error PyErr.assertionError

/-- The result set of `SELECT id, dev_type, label_id FROM device WHERE
identifier = %s` over a device-table state. -/
def device_query (devices : List DeviceRecord) (device_id : String) :
    List (Int × String × Option Int) :=
  (devices.filter (fun d => d.identifier == device_id)).map
    (fun d => (d.id, d.dev_type, d.label_id))

/-- Device resolution `Pe32Writer.get_device`. -/
def get_device (devices : List DeviceRecord) (device_id : String) :
    Except PyErr (Int × String × Option Int) :=
  get_row (device_query devices device_id)

/-- A value bound into an INSERT statement. -/
inductive SqlValue where
  | timeVal (t : Nat)
  | intVal (n : Int)
  | strVal (s : String)
  | numVal (v : Rat)
deriving DecidableEq, Repr

/-- One executed INSERT: target table, column list as written in the SQL,
and the bound values in the same order. -/
structure InsertRow where
  table : String
  columns : List String
  values : List SqlValue
deriving DecidableEq, Repr

/-- Timestamp bucketing `timestamp = (time.time() // 60) * 60` for an integer
arrival time. -/
def bucket_time (now : Nat) : Nat := (now / 60) * 60

/-- The stored timestamp of an executed INSERT (both INSERT statements in
`on_measure` bind `to_timestamp(%s)` first). -/
def row_time (r : InsertRow) : Option SqlValue := r.values.head?

/-- Model of `Pe32Writer.on_measure`.  Returns the list of executed INSERTs (empty
when the event is ignored) or the uncaught exception.  `pf` stands for
Python `float()`: `none` models the `ValueError` on an unparsable payload. -/
def on_measure (pf : String → Option Rat) (devices : List DeviceRecord)
    (tables : Catalog) (now : Nat)
    (device_id : String) (measure : String) (str_value : String) :
    Except PyErr (List InsertRow) :=
  match get_device devices device_id with
  | Except.error e => Except.error e
  | Except.ok (_id, _dev_type, label_id) =>
    match tables_get tables measure, label_id with
    | (some table, some m), some lid =>
      if table = "" || lid = 0 then
        Except.ok []
      else
        let timestamp := bucket_time now
        match m with
        | Marshaller.str =>
          Except.ok [⟨table, ["time", "label_id", "value"],
            [SqlValue.timeVal timestamp, SqlValue.intVal lid,
             SqlValue.strVal str_value]⟩]
        | Marshaller.float =>
          match pf str_value with
          | none => Except.error PyErr.valueError
          | some v =>
            Except.ok [⟨table, ["time", "label_id", "low", "avg", "high"],
              [SqlValue.timeVal timestamp, SqlValue.intVal lid,
               SqlValue.numVal v, SqlValue.numVal v, SqlValue.numVal v]⟩]
    | _, _ => Except.ok []

/-- Splitting a character list on '/' (every occurrence separates; empty
segments are kept), as the Python split method does. -/
def split_slash : List Char → List (List Char)
  | [] => [[]]
  | c :: t =>
    match split_slash t with
    | r :: rs => if c = '/' then [] :: r :: rs else (c :: r) :: rs
    | [] => [[]]

/-- Topic splitting, the Python split method applied to the topic. -/
def topic_split (s : String) : List String :=
  (split_slash s.data).map String.mk

/-- Model of `Pe32Relay.on_payload`: split the topic, require exactly four
segments (`ValueError` otherwise), assert the protocol and namespace
literals, then delegate to `on_measure`. -/
def on_payload (pf : String → Option Rat) (devices : List DeviceRecord)
    (tables : Catalog) (now : Nat) (topic : String) (payload : String) :
    Except PyErr (List InsertRow) :=
  match topic_split topic with
  | [proto, ns, measure, device_id] =>
    if proto ≠ "pe32" then Except.error PyErr.assertionError
    else if ns ≠ "ossohq" then Except.error PyErr.assertionError
    else on_measure pf devices tables now device_id measure payload
  | _ => Except.error PyErr.valueError

/-- ASCII decoding of the payload bytes (`msg.payload.decode`): succeeds iff
every byte is below 128. -/
def ascii_decode (bs : List Nat) : Except PyErr String :=
  if bs.all (fun b => b < 128) then
    Except.ok (String.mk (bs.map Char.ofNat))
  else
    Except.error PyErr.unicodeDecodeError

/-- Model of `Pe32Relay.on_message`: decode the payload and process it; any exception
is caught, logged, and swallowed, so the message yields no INSERTs. -/
def on_message (pf : String → Option Rat) (devices : List DeviceRecord)
    (tables : Catalog) (now : Nat) (topic : String) (payload : List Nat) :
    List InsertRow :=
  match ascii_decode payload with
  | Except.error _ => []
  | Except.ok p =>
    match on_payload pf devices tables now topic p with
    | Except.ok rows => rows
    | Except.error _ => []

/-- The relay loop over a sequence of inbound messages: each message is
handled by `on_message` independently (per-message isolation). -/
def process_messages (pf : String → Option Rat) (devices : List DeviceRecord)
    (tables : Catalog) (now : Nat) (msgs : List (String × List Nat)) :
    List InsertRow :=
  match msgs with
  | [] => []
  | (topic, payload) :: rest =>
    on_message pf devices tables now topic payload ++
      process_messages pf devices tables now rest

/-- A concrete numeric marshaller used to instantiate `pf` in closed
evaluations: parses exactly the literal "21.5". -/
def pf_example : String → Option Rat :=
  fun s => if s = "21.5" then some (mkRat 43 2) else none


/-! Concrete fixtures used by the closed witness evaluations. -/

def c2_devices : List DeviceRecord := [⟨1, "EUI48:AA", "sensor", some 3⟩]
def c2_tables : Catalog := [("comfort", ("comfort", Marshaller.str))]
def c2_row : InsertRow :=
  ⟨"comfort", ["time", "label_id", "value"],
    [SqlValue.timeVal 120, SqlValue.intVal 3, SqlValue.strVal "dry"]⟩
def c4_devices : List DeviceRecord := [⟨1, "dev1", "sensor", none⟩]
def c5_devices : List DeviceRecord := [⟨1, "dev1", "sensor", some 3⟩]
def c5_tables : Catalog := [("comfort", ("comfort", Marshaller.str))]
def c6_extra_cols : Columns := NUMERIC_TABLE_LAYOUT ++ [("extra", ⟨true, DB_NUM⟩)]
def c6_schema : Schema :=
  [("temperature", NUMERIC_TABLE_LAYOUT), ("comfort", TEXT_TABLE_LAYOUT),
   ("roomx", c6_extra_cols)]
def c7_schema1 : Schema :=
  [("alpha", TEXT_TABLE_LAYOUT), ("beta", NUMERIC_TABLE_LAYOUT)]
def c7_schema2 : Schema :=
  [("beta", NUMERIC_TABLE_LAYOUT), ("alpha", TEXT_TABLE_LAYOUT)]
def c8_devices : List DeviceRecord :=
  [⟨1, "dup", "a", some 1⟩, ⟨2, "dup", "b", some 2⟩]
def c9_devices : List DeviceRecord := [⟨1, "dev1", "sensor", some 0⟩]

theorem lookup_eq_none {β : Type} {l : List (String × β)} {a : String}
    (h : a ∉ l.map Prod.fst) : List.lookup a l = none := by
  induction l with
  | nil => rfl
  | cons kv t ih =>
    simp only [List.map_cons, List.mem_cons] at h
    push_neg at h
    simp only [List.lookup]
    rw [beq_eq_false_iff_ne.mpr h.1]
    exact ih h.2

theorem mem_of_lookup {β : Type} {l : List (String × β)} {a : String} {b : β}
    (h : List.lookup a l = some b) : (a, b) ∈ l := by
  induction l with
  | nil => cases h
  | cons kv t ih =>
    simp only [List.lookup] at h
    by_cases he : a == kv.1
    · rw [he] at h
      simp only [Option.some.injEq] at h
      have ha : a = kv.1 := beq_iff_eq.mp he
      rw [List.mem_cons]
      left
      rw [ha, ← h]
    · rw [Bool.not_eq_true] at he
      rw [he] at h
      exact List.mem_cons_of_mem _ (ih h)

theorem lookup_of_mem {β : Type} {l : List (String × β)} {a : String} {b : β}
    (hnd : (l.map Prod.fst).Nodup) (hm : (a, b) ∈ l) : List.lookup a l = some b := by
  induction l with
  | nil => cases hm
  | cons kv t ih =>
    simp only [List.map_cons, List.nodup_cons] at hnd
    rcases List.mem_cons.mp hm with h | h
    · rw [← h]
      simp [List.lookup]
    · have hne : a ≠ kv.1 := by
        intro he
        apply hnd.1
        rw [← he]
        exact List.mem_map.mpr ⟨(a, b), h, rfl⟩
      simp only [List.lookup]
      rw [beq_eq_false_iff_ne.mpr hne]
      exact ih hnd.2 h

theorem lookup_isSome_of_mem_keys {β : Type} {l : List (String × β)} {a : String}
    (h : a ∈ l.map Prod.fst) : (List.lookup a l).isSome = true := by
  induction l with
  | nil => cases h
  | cons kv t ih =>
    simp only [List.map_cons, List.mem_cons] at h
    simp only [List.lookup]
    by_cases he : a = kv.1
    · rw [beq_iff_eq.mpr he]
      rfl
    · rw [beq_eq_false_iff_ne.mpr he]
      exact ih (h.resolve_left he)

theorem lookup_eq_none_iff {β : Type} {l : List (String × β)} {a : String} :
    List.lookup a l = none ↔ a ∉ l.map Prod.fst := by
  constructor
  · intro h hm
    have := lookup_isSome_of_mem_keys hm
    rw [h] at this
    cases this
  · exact lookup_eq_none

theorem lookup_perm {β : Type} {l1 l2 : List (String × β)}
    (hnd : (l1.map Prod.fst).Nodup) (hp : l1.Perm l2) (a : String) :
    List.lookup a l1 = List.lookup a l2 := by
  have hpk : (l1.map Prod.fst).Perm (l2.map Prod.fst) := hp.map Prod.fst
  have hnd2 : (l2.map Prod.fst).Nodup := hpk.nodup_iff.mp hnd
  cases h : List.lookup a l1 with
  | none =>
    rw [eq_comm, lookup_eq_none_iff]
    intro hm
    exact lookup_eq_none_iff.mp h (hpk.mem_iff.mpr hm)
  | some b =>
    rw [eq_comm]
    exact lookup_of_mem hnd2 (hp.mem_iff.mp (mem_of_lookup h))


theorem ins_sorted_perm (a : String) (m : List String) :
    (ins_sorted a m).Perm (a :: m) := by
  induction m with
  | nil => simp [ins_sorted]
  | cons b r ih =>
    by_cases hx : py_str_le a b
    · simp [ins_sorted, hx]
    · simp only [ins_sorted]
      rw [if_neg hx]
      exact ((ih.cons b).trans (List.Perm.swap a b r))

theorem py_sorted_perm (l : List String) : (py_sorted l).Perm l := by
  induction l with
  | nil => simp [py_sorted]
  | cons a t ih =>
    exact (ins_sorted_perm a (py_sorted t)).trans (ih.cons a)

theorem lookup_filterMap {β : Type} (ns : List String) (f : String → Option β)
    (hnd : ns.Nodup) (t : String) :
    List.lookup t (ns.filterMap (fun n => (f n).map (fun b => (n, b)))) =
      if t ∈ ns then f t else none := by
  induction ns with
  | nil => simp
  | cons n rest ih =>
    simp only [List.nodup_cons] at hnd
    by_cases ht : t = n
    · subst ht
      simp only [List.filterMap_cons, List.mem_cons, true_or, if_true]
      cases hf : f t with
      | none =>
        simp only [Option.map_none']
        rw [ih hnd.2]
        rw [if_neg hnd.1]
      | some b =>
        simp only [Option.map_some']
        simp [List.lookup]
    · cases hf : f n with
      | none =>
        simp only [List.filterMap_cons, hf, Option.map_none']
        rw [ih hnd.2]
        simp only [List.mem_cons]
        by_cases hm : t ∈ rest
        · rw [if_pos hm, if_pos (Or.inr hm)]
        · rw [if_neg hm, if_neg (by rintro (h | h); exact ht h; exact hm h)]
      | some b =>
        simp only [List.filterMap_cons, hf, Option.map_some']
        simp only [List.lookup]
        rw [beq_eq_false_iff_ne.mpr ht]
        rw [ih hnd.2]
        simp only [List.mem_cons]
        by_cases hm : t ∈ rest
        · rw [if_pos hm, if_pos (Or.inr hm)]
        · rw [if_neg hm, if_neg (by rintro (h | h); exact ht h; exact hm h)]

theorem from_database_eq (schema : Schema) :
    from_database schema =
      (py_sorted (schema.map Prod.fst)).filterMap
        (fun n => (((List.lookup n schema).bind (classify_table n)).map
          (fun m => (n, m))).map (fun b => (n, b))) := by
  unfold from_database
  congr 1
  funext n
  rw [Option.map_map]
  rfl

theorem lookup_from_database (schema : Schema)
    (hnd : (schema.map Prod.fst).Nodup) (t : String) :
    List.lookup t (from_database schema) =
      ((List.lookup t schema).bind (classify_table t)).map (fun m => (t, m)) := by
  have hp := py_sorted_perm (schema.map Prod.fst)
  have hnd' : (py_sorted (schema.map Prod.fst)).Nodup := hp.nodup_iff.mpr hnd
  rw [from_database_eq]
  rw [lookup_filterMap _ _ hnd' t]
  by_cases hm : t ∈ py_sorted (schema.map Prod.fst)
  · rw [if_pos hm]
  · rw [if_neg hm]
    have : t ∉ schema.map Prod.fst := fun h => hm (hp.mem_iff.mpr h)
    rw [lookup_eq_none this]
    rfl

theorem tables_get_from_database (schema : Schema)
    (hnd : (schema.map Prod.fst).Nodup) (t : String) :
    tables_get (from_database schema) t =
      match (List.lookup t schema).bind (classify_table t) with
      | some m => (some t, some m)
      | none => (none, none) := by
  unfold tables_get
  rw [lookup_from_database schema hnd t]
  cases (List.lookup t schema).bind (classify_table t) with
  | none => rfl
  | some m => rfl

theorem dictEq_iff {a b : Columns} (ha : (a.map Prod.fst).Nodup)
    (hb : (b.map Prod.fst).Nodup) :
    dictEq a b = true ↔ ∀ k, List.lookup k a = List.lookup k b := by
  unfold dictEq
  rw [Bool.and_eq_true, List.all_eq_true, List.all_eq_true]
  constructor
  · rintro ⟨h1, h2⟩ k
    cases hk : List.lookup k a with
    | some v =>
      have hm := mem_of_lookup hk
      have := h1 (k, v) hm
      rw [beq_iff_eq] at this
      rw [this]
    | none =>
      cases hk2 : List.lookup k b with
      | none => rfl
      | some w =>
        have hm := mem_of_lookup hk2
        have := h2 (k, w) hm
        rw [beq_iff_eq] at this
        rw [this] at hk
        cases hk
  · intro h
    constructor
    · intro kv hm
      rw [beq_iff_eq, ← h kv.1]
      exact lookup_of_mem ha (by simpa using hm)
    · intro kv hm
      rw [beq_iff_eq, h kv.1]
      exact lookup_of_mem hb (by simpa using hm)


/-- Claim C1 (evaluation at the failing input): for a routed numeric
measurement whose payload parses as value v = 21.5, the executed INSERT
fills `low`, `avg` and `high` all with v, but its column list is exactly
`time, label_id, low, avg, high`: the `med` column is omitted, although the
numeric layout the code itself requires declares `med` as NOT NULL.  The
code therefore does not store `med = v` as the claim states. -/
theorem c1_numeric_insert_omits_med :
    on_measure pf_example [⟨1, "EUI48:AA:BB:CC:DD:EE:FF", "sensor", some 3⟩]
        [("temperature", ("temperature", Marshaller.float))] 125
        "EUI48:AA:BB:CC:DD:EE:FF" "temperature" "21.5" =
      Except.ok [⟨"temperature", ["time", "label_id", "low", "avg", "high"],
        [SqlValue.timeVal 120, SqlValue.intVal 3, SqlValue.numVal (mkRat 43 2),
         SqlValue.numVal (mkRat 43 2), SqlValue.numVal (mkRat 43 2)]⟩] ∧
      "med" ∉ ["time", "label_id", "low", "avg", "high"] ∧
      List.lookup "med" NUMERIC_TABLE_LAYOUT = some ⟨false, DB_NUM⟩ := by
  decide

/-- Claim C2: for every arrival time `now` (integer seconds since epoch,
nonnegative by the `Nat` type), the timestamp stored with every row written
by `on_measure` is `bucket_time now`, which equals `floor(now / 60) * 60`
(rational floor) and is always on a 60-second boundary. -/
theorem c2_timestamp_bucketing (pf : String → Option Rat)
    (devices : List DeviceRecord) (tables : Catalog) (now : Nat)
    (device_id measure str_value : String) (rows : List InsertRow)
    (h : on_measure pf devices tables now device_id measure str_value =
      Except.ok rows) :
    bucket_time now = ⌊(now : ℚ) / 60⌋₊ * 60 ∧ bucket_time now % 60 = 0 ∧
      ∀ r ∈ rows, row_time r = some (SqlValue.timeVal (bucket_time now)) := by
  refine ⟨?_, ?_, ?_⟩
  · have h60 : ((60 : ℚ)) = ((60 : ℕ) : ℚ) := by norm_num
    unfold bucket_time
    rw [h60, Nat.floor_div_nat, Nat.floor_natCast]
  · exact Nat.mul_mod_left _ _
  · intro r hr
    unfold on_measure at h
    split at h
    · cases h
    · split at h
      · split at h
        · injection h with h2
          rw [← h2] at hr
          cases hr
        · split at h
          · injection h with h2
            rw [← h2] at hr
            rcases List.mem_singleton.mp hr with rfl
            rfl
          · split at h
            · cases h
            · injection h with h2
              rw [← h2] at hr
              rcases List.mem_singleton.mp hr with rfl
              rfl
      · injection h with h2
        rw [← h2] at hr
        cases hr

theorem c2_timestamp_bucketing_witness :
    (on_measure pf_example c2_devices c2_tables 125 "EUI48:AA" "comfort" "dry" =
      Except.ok [c2_row]) ∧
    (bucket_time 125 = ⌊(125 : ℚ) / 60⌋₊ * 60 ∧ bucket_time 125 % 60 = 0 ∧
      ∀ r ∈ [c2_row], row_time r = some (SqlValue.timeVal (bucket_time 125))) :=
  ⟨by decide,
   c2_timestamp_bucketing pf_example c2_devices c2_tables 125 "EUI48:AA"
     "comfort" "dry" [c2_row] (by decide)⟩

/-- Claim C3: for every topic that does not split on the slash into exactly
four segments, or whose first segment is not "pe32", or whose second
segment is not "ossohq", `on_payload` raises a topic error (the ValueError
for a wrong segment count or the AssertionError for a wrong literal) for
every payload, and no row is written for that message. -/
theorem c3_topic_error_no_write (pf : String → Option Rat)
    (devices : List DeviceRecord) (tables : Catalog) (now : Nat)
    (topic : String)
    (h : (topic_split topic).length ≠ 4 ∨
      (topic_split topic)[0]? ≠ some "pe32" ∨
      (topic_split topic)[1]? ≠ some "ossohq") :
    (∀ payload,
      on_payload pf devices tables now topic payload =
          Except.error PyErr.valueError ∨
        on_payload pf devices tables now topic payload =
          Except.error PyErr.assertionError) ∧
      ∀ bs, on_message pf devices tables now topic bs = [] := by
  have hp : ∀ payload,
      on_payload pf devices tables now topic payload =
          Except.error PyErr.valueError ∨
        on_payload pf devices tables now topic payload =
          Except.error PyErr.assertionError := by
    intro payload
    unfold on_payload
    split
    · rename_i proto ns meas dev heq
      rw [heq] at h
      simp only [List.length_cons, List.length_nil] at h
      rcases h with h4 | h0 | h1
      · omega
      · right
        simp only [List.getElem?_cons_zero, ne_eq, Option.some.injEq] at h0
        rw [if_pos h0]
      · by_cases hproto : proto = "pe32"
        · right
          rw [if_neg (by simp [hproto])]
          simp only [List.getElem?_cons_succ, List.getElem?_cons_zero, ne_eq,
            Option.some.injEq] at h1
          rw [if_pos h1]
        · right
          rw [if_pos hproto]
    · left
      rfl
  refine ⟨hp, ?_⟩
  intro bs
  unfold on_message
  cases hd : ascii_decode bs with
  | error e => rfl
  | ok p =>
    rcases hp p with he | he <;> simp only [he]

theorem c3_topic_error_no_write_witness :
    ((topic_split "pe32/wrongns/temperature/EUI48:AA").length ≠ 4 ∨
      (topic_split "pe32/wrongns/temperature/EUI48:AA")[0]? ≠ some "pe32" ∨
      (topic_split "pe32/wrongns/temperature/EUI48:AA")[1]? ≠ some "ossohq") ∧
    ((∀ payload,
      on_payload pf_example [] [] 0 "pe32/wrongns/temperature/EUI48:AA"
          payload = Except.error PyErr.valueError ∨
        on_payload pf_example [] [] 0 "pe32/wrongns/temperature/EUI48:AA"
          payload = Except.error PyErr.assertionError) ∧
      ∀ bs, on_message pf_example [] [] 0 "pe32/wrongns/temperature/EUI48:AA"
        bs = []) :=
  ⟨by decide,
   c3_topic_error_no_write pf_example [] [] 0
     "pe32/wrongns/temperature/EUI48:AA" (by decide)⟩

/-- Claim C4: for every measurement event whose device record resolves
with an absent (`none`) label reference, `on_measure` writes no row,
regardless of the measurement name and payload. -/
theorem c4_null_label_no_write (pf : String → Option Rat)
    (devices : List DeviceRecord) (tables : Catalog) (now : Nat)
    (device_id measure str_value : String) (i : Int) (dt : String)
    (h : get_device devices device_id = Except.ok (i, dt, none)) :
    on_measure pf devices tables now device_id measure str_value =
      Except.ok [] := by
  unfold on_measure
  simp only [h]
  split
  · rename_i heq
    cases heq
  · rfl

theorem c4_null_label_no_write_witness :
    (get_device c4_devices "dev1" = Except.ok (1, "sensor", none)) ∧
      on_measure pf_example c4_devices
        [("temperature", ("temperature", Marshaller.float))] 125 "dev1"
        "temperature" "21.5" = Except.ok [] :=
  ⟨by decide,
   c4_null_label_no_write pf_example c4_devices
     [("temperature", ("temperature", Marshaller.float))] 125 "dev1"
     "temperature" "21.5" 1 "sensor" (by decide)⟩

/-- Claim C5: for every measurement name not present in the catalog
snapshot, the router lookup `tables_get` returns the default
`(none, none)` rather than an error, and processing the event (with the
device resolving) writes no row and raises no error. -/
theorem c5_unrouted_measure_dropped (pf : String → Option Rat)
    (devices : List DeviceRecord) (tables : Catalog) (now : Nat)
    (device_id measure str_value : String) (res : Int × String × Option Int)
    (hlk : List.lookup measure tables = none)
    (hdev : get_device devices device_id = Except.ok res) :
    tables_get tables measure = (none, none) ∧
      on_measure pf devices tables now device_id measure str_value =
        Except.ok [] := by
  have htg : tables_get tables measure = (none, none) := by
    unfold tables_get
    rw [hlk]
  refine ⟨htg, ?_⟩
  obtain ⟨i, dt, lbl⟩ := res
  unfold on_measure
  simp only [hdev, htg]

theorem c5_unrouted_measure_dropped_witness :
    (List.lookup "humidity" c5_tables = none ∧
      get_device c5_devices "dev1" = Except.ok (1, "sensor", some 3)) ∧
    (tables_get c5_tables "humidity" = (none, none) ∧
      on_measure pf_example c5_devices c5_tables 125 "dev1" "humidity" "41" =
        Except.ok []) :=
  ⟨⟨by decide, by decide⟩,
   c5_unrouted_measure_dropped pf_example c5_devices c5_tables 125 "dev1"
     "humidity" "41" (1, "sensor", some 3) (by decide) (by decide)⟩

/-- Claim C6: a discovered table other than "device" and "label" is
classified as numeric (resp. text) iff its column dictionary agrees with
the canonical numeric (resp. text) layout at every key, i.e. exactly in
column names, nullability and data type; a table matching neither layout is
excluded from the catalog. -/
theorem c6_exact_layout_classification (schema : Schema)
    (hnd : (schema.map Prod.fst).Nodup) (t : String) (cols : Columns)
    (hmem : (t, cols) ∈ schema) (hcnd : (cols.map Prod.fst).Nodup)
    (hdev : t ≠ "device") (hlab : t ≠ "label") :
    (tables_get (from_database schema) t = (some t, some Marshaller.float) ↔
      ∀ k, List.lookup k cols = List.lookup k NUMERIC_TABLE_LAYOUT) ∧
    (tables_get (from_database schema) t = (some t, some Marshaller.str) ↔
      ∀ k, List.lookup k cols = List.lookup k TEXT_TABLE_LAYOUT) ∧
    ((¬ ∀ k, List.lookup k cols = List.lookup k NUMERIC_TABLE_LAYOUT) →
      (¬ ∀ k, List.lookup k cols = List.lookup k TEXT_TABLE_LAYOUT) →
      tables_get (from_database schema) t = (none, none)) := by
  have hlk : List.lookup t schema = some cols := lookup_of_mem hnd hmem
  have hc := tables_get_from_database schema hnd t
  rw [hlk] at hc
  simp only [Option.some_bind] at hc
  unfold classify_table at hc
  rw [if_neg (by simp [hdev, hlab])] at hc
  have hnum : (NUMERIC_TABLE_LAYOUT.map Prod.fst).Nodup := by decide
  have htext : (TEXT_TABLE_LAYOUT.map Prod.fst).Nodup := by decide
  have hqnum := dictEq_iff hcnd hnum
  have hqtext := dictEq_iff hcnd htext
  by_cases h1 : dictEq cols NUMERIC_TABLE_LAYOUT = true
  · rw [if_pos h1] at hc
    refine ⟨⟨fun _ => hqnum.mp h1, fun _ => hc⟩, ⟨?_, ?_⟩, ?_⟩
    · intro he
      rw [hc] at he
      simp at he
    · intro hk
      exfalso
      have ha := (hqnum.mp h1) "value"
      have hb := hk "value"
      rw [ha] at hb
      revert hb
      decide
    · intro hn _
      exact absurd (hqnum.mp h1) hn
  · rw [if_neg h1] at hc
    by_cases h2 : dictEq cols TEXT_TABLE_LAYOUT = true
    · rw [if_pos h2] at hc
      refine ⟨⟨?_, ?_⟩, ⟨fun _ => hqtext.mp h2, fun _ => hc⟩, ?_⟩
      · intro he
        rw [hc] at he
        simp at he
      · intro hk
        exact absurd (hqnum.mpr hk) h1
      · intro _ ht
        exact absurd (hqtext.mp h2) ht
    · rw [if_neg h2] at hc
      refine ⟨⟨?_, ?_⟩, ⟨?_, ?_⟩, fun _ _ => hc⟩
      · intro he
        rw [hc] at he
        simp at he
      · intro hk
        exact absurd (hqnum.mpr hk) h1
      · intro he
        rw [hc] at he
        simp at he
      · intro hk
        exact absurd (hqtext.mpr hk) h2

theorem c6_exact_layout_classification_witness :
    ((c6_schema.map Prod.fst).Nodup ∧ ("roomx", c6_extra_cols) ∈ c6_schema ∧
      (c6_extra_cols.map Prod.fst).Nodup ∧ "roomx" ≠ "device" ∧
      "roomx" ≠ "label") ∧
    tables_get (from_database c6_schema) "roomx" = (none, none) :=
  ⟨by decide,
   (c6_exact_layout_classification c6_schema (by decide) "roomx" c6_extra_cols
       (by decide) (by decide) (by decide) (by decide)).2.2
     (fun hall => absurd (hall "extra") (by decide))
     (fun hall => absurd (hall "value") (by decide))⟩

/-- Claim C7: catalog discovery is deterministic: for a fixed schema
snapshot (no duplicate table names), two runs of `from_database` over any
two orderings of the same tables produce the same table-to-kind mapping. -/
theorem c7_catalog_deterministic (l1 l2 : Schema)
    (hnd : (l1.map Prod.fst).Nodup) (hp : l1.Perm l2) (t : String) :
    tables_get (from_database l1) t = tables_get (from_database l2) t := by
  have hnd2 : (l2.map Prod.fst).Nodup := ((hp.map Prod.fst).nodup_iff).mp hnd
  rw [tables_get_from_database l1 hnd t, tables_get_from_database l2 hnd2 t,
    lookup_perm hnd hp t]

theorem c7_catalog_deterministic_witness :
    ((c7_schema1.map Prod.fst).Nodup ∧ c7_schema1.Perm c7_schema2) ∧
    tables_get (from_database c7_schema1) "alpha" =
      tables_get (from_database c7_schema2) "alpha" :=
  ⟨⟨by decide, List.Perm.swap _ _ _⟩,
   c7_catalog_deterministic c7_schema1 c7_schema2 (by decide)
     (List.Perm.swap _ _ _) "alpha"⟩

/-- Claim C8: when the device query returns zero rows or more than one row
for an external identifier, `get_device` yields the lookup error
(AssertionError), `on_measure` propagates it so no row is written, and the
relay `on_message` recovers: the message is dropped with no INSERT. -/
theorem c8_device_lookup_requires_unique (pf : String → Option Rat)
    (devices : List DeviceRecord) (tables : Catalog) (now : Nat)
    (device_id : String)
    (h : (device_query devices device_id).length ≠ 1) :
    get_device devices device_id = Except.error PyErr.assertionError ∧
      (∀ measure str_value,
        on_measure pf devices tables now device_id measure str_value =
          Except.error PyErr.assertionError) ∧
      (∀ topic bs meas,
        topic_split topic = ["pe32", "ossohq", meas, device_id] →
          on_message pf devices tables now topic bs = []) := by
  have hg : get_device devices device_id = Except.error PyErr.assertionError := by
    unfold get_device get_row
    split
    · rename_i r heq
      exfalso
      apply h
      rw [heq]
      rfl
    · rfl
  have hom : ∀ measure str_value,
      on_measure pf devices tables now device_id measure str_value =
        Except.error PyErr.assertionError := by
    intro measure str_value
    unfold on_measure
    simp only [hg]
  refine ⟨hg, hom, ?_⟩
  intro topic bs meas htopic
  unfold on_message
  cases hd : ascii_decode bs with
  | error e => rfl
  | ok p =>
    unfold on_payload
    simp only [htopic]
    simp [hom]

theorem c8_device_lookup_requires_unique_witness :
    ((device_query c8_devices "dup").length ≠ 1) ∧
    (get_device c8_devices "dup" = Except.error PyErr.assertionError ∧
      (∀ measure str_value,
        on_measure pf_example c8_devices [] 0 "dup" measure str_value =
          Except.error PyErr.assertionError) ∧
      (∀ topic bs meas, topic_split topic = ["pe32", "ossohq", meas, "dup"] →
        on_message pf_example c8_devices [] 0 topic bs = [])) :=
  ⟨by decide,
   c8_device_lookup_requires_unique pf_example c8_devices [] 0 "dup"
     (by decide)⟩

/-- Claim C9 (implicit): a device whose label reference is the integer 0
(non-null but falsy in Python) is treated like the null-label case:
`on_measure` writes no row. -/
theorem c9_zero_label_no_write (pf : String → Option Rat)
    (devices : List DeviceRecord) (tables : Catalog) (now : Nat)
    (device_id measure str_value : String) (i : Int) (dt : String)
    (h : get_device devices device_id = Except.ok (i, dt, some 0)) :
    on_measure pf devices tables now device_id measure str_value =
      Except.ok [] := by
  unfold on_measure
  simp only [h]
  split
  · rename_i heq1 heq2
    injection heq2 with heq3
    rw [← heq3]
    simp
  · rfl

theorem c9_zero_label_no_write_witness :
    (get_device c9_devices "dev1" = Except.ok (1, "sensor", some 0)) ∧
      on_measure pf_example c9_devices
        [("comfort", ("comfort", Marshaller.str))] 125 "dev1" "comfort"
        "dry" = Except.ok [] :=
  ⟨by decide,
   c9_zero_label_no_write pf_example c9_devices
     [("comfort", ("comfort", Marshaller.str))] 125 "dev1" "comfort" "dry"
     1 "sensor" (by decide)⟩

/-- Claim C10 (implicit): a message whose payload bytes are not ASCII
decodable is dropped at the relay boundary with no row written, and
processing of the remaining messages is unaffected. -/
theorem c10_nonascii_payload_dropped (pf : String → Option Rat)
    (devices : List DeviceRecord) (tables : Catalog) (now : Nat)
    (topic : String) (bs : List Nat) (rest : List (String × List Nat))
    (h : ¬ (bs.all (fun b => b < 128) = true)) :
    on_message pf devices tables now topic bs = [] ∧
      process_messages pf devices tables now ((topic, bs) :: rest) =
        process_messages pf devices tables now rest := by
  have hm : on_message pf devices tables now topic bs = [] := by
    unfold on_message ascii_decode
    rw [if_neg h]
  refine ⟨hm, ?_⟩
  have hstep : process_messages pf devices tables now ((topic, bs) :: rest) =
      on_message pf devices tables now topic bs ++
        process_messages pf devices tables now rest := rfl
  rw [hstep, hm, List.nil_append]

theorem c10_nonascii_payload_dropped_witness :
    (¬ (([200] : List Nat).all (fun b => b < 128) = true)) ∧
    (on_message pf_example [] [] 0 "pe32/ossohq/comfort/dev1" [200] = [] ∧
      process_messages pf_example [] [] 0
          [("pe32/ossohq/comfort/dev1", [200])] =
        process_messages pf_example [] [] 0 []) :=
  ⟨by decide,
   c10_nonascii_payload_dropped pf_example [] [] 0 "pe32/ossohq/comfort/dev1"
     [200] [] (by decide)⟩

end Pe32MultiSub
